import Mathlib

/-!
Verification of the ceramic http client core: commit construction,
diff-reconciliation, response resolution, admin envelope conversion and
query serialization, shallowly embedded from src/lib.rs and src/api.rs.

External collaborators (the ceramic_event identifier/signing crate, the
json_patch diff library) are declared by the specification to be opaque
value types and capabilities; they are modelled from the spec's words and
clearly marked as such below.
-/

namespace Ceramic

/-- A JSON value, the embedding of serde_json::Value: null, booleans,
numbers, strings, arrays and objects. Objects are ordered key/value lists
since serialization order is observable on the wire. Numeric values in the
claims are small non-negative integers, so numbers are Nat. -/
inductive Value where
  | null : Value
  | bool (b : Bool) : Value
  | num (n : Nat) : Value
  | str (s : String) : Value
  | arr (xs : List Value) : Value
  | obj (kvs : List (String × Value)) : Value

/-- JSON string escaping of one character as serde_json renders it for the
character classes appearing in this development. -/
def escChar (c : Char) : String :=
  if c = '"' then "\\\""
  else if c = '\\' then "\\\\"
  else if c = '\n' then "\\n"
  else if c = '\t' then "\\t"
  else if c = '\r' then "\\r"
  else String.singleton c

/-- JSON string escaping, character by character. -/
def escStr (s : String) : String :=
  String.join (s.toList.map escChar)

mutual

/-- Compact JSON rendering, the embedding of serde_json::to_string. -/
def Value.render : Value → String
  | .null => "null"
  | .bool true => "true"
  | .bool false => "false"
  | .num n => Nat.repr n
  | .str s => "\"" ++ escStr s ++ "\""
  | .arr xs => "[" ++ renderArr xs ++ "]"
  | .obj kvs => "\x7b" ++ renderObj kvs ++ "\x7d"

/-- Comma separated rendering of array elements. -/
def renderArr : List Value → String
  | [] => ""
  | [x] => Value.render x
  | x :: rest => Value.render x ++ "," ++ renderArr rest

/-- Comma separated rendering of object entries. -/
def renderObj : List (String × Value) → String
  | [] => ""
  | [(k, v)] => "\"" ++ escStr k ++ "\":" ++ Value.render v
  | (k, v) :: rest => "\"" ++ escStr k ++ "\":" ++ Value.render v ++ "," ++ renderObj rest

end

/-- Field lookup on a JSON object; none on non-objects, matching a struct
deserializer failing on a non-map input. -/
def Value.lookup : Value → String → Option Value
  | .obj kvs, key => kvs.lookup key
  | _, _ => none

/-- Modelled from the spec: base64 encoded byte string from the external
identifier crate, an opaque value type with a stable representation; we
carry the representation verbatim. -/
abbrev Base64String := String

/-- Modelled from the spec: base64url encoded string, opaque, stable. -/
abbrev Base64UrlString := String

/-- Modelled from the spec: multibase base36 encoded string, opaque, stable. -/
abbrev MultiBase36String := String

/-- Modelled from the spec: multibase base32 encoded string, opaque, stable. -/
abbrev MultiBase32String := String

/-- Modelled from the spec: dag-cbor encoded bytes, opaque, stable. -/
abbrev DagCborEncoded := String

/-- Modelled from the spec: a content identifier, opaque with a stable
string representation. -/
abbrev Cid := String

/-- Modelled from the spec: the kind tag carried by a stream identifier in
the external identifier crate, serialized as an integer enum. -/
inductive StreamIdType where
  | tile
  | caip10Link
  | model
  | modelInstanceDocument
  | unloadableDocument
  | eventId
deriving DecidableEq

/-- Integer code of a stream kind on the wire. -/
def StreamIdType.code : StreamIdType → Nat
  | .tile => 0
  | .caip10Link => 1
  | .model => 2
  | .modelInstanceDocument => 3
  | .unloadableDocument => 4
  | .eventId => 5

/-- Modelled from the spec: a stream identifier from the external
identifier crate, an opaque typed identifier carrying a kind tag and a
content identifier, with stable string and binary encodings that
round-trip exactly. The opaque encodings are modelled as carrying the cid
text verbatim. -/
structure StreamId where
  tpe : StreamIdType
  cid : Cid

/-- True exactly when the identifier is tagged as the Model kind. -/
def StreamId.is_model : StreamId → Bool
  | ⟨.model, _⟩ => true
  | _ => false

/-- True exactly when the identifier is tagged as the document
(ModelInstanceDocument) kind. -/
def StreamId.is_document : StreamId → Bool
  | ⟨.modelInstanceDocument, _⟩ => true
  | _ => false

/-- Modelled from the spec: the opaque binary encoding of a stream
identifier (to_vec), stable and injective per identifier; carried
verbatim. -/
def StreamId.toVec (s : StreamId) : String := s.cid

/-- Modelled from the spec: the opaque base36 string form of a stream
identifier, stable round-trip; carried verbatim. -/
def StreamId.toBase36 (s : StreamId) : String := s.cid

/-- Modelled from the spec: decoding a stream identifier from its base36
text. The kind tag is part of the opaque encoding; no claim settled here
inspects the kind recovered by decoding, so the model fixes the document
kind. -/
def StreamId.fromBase36 (s : String) : StreamId :=
  ⟨StreamIdType.modelInstanceDocument, s⟩

/-- Modelled from the spec: the external content identifier parser applied
to the stable string form, on which it succeeds. -/
def Cid.fromStr (s : String) : Except String Cid := .ok s

/-- Modelled from the spec: base64 encoding of raw bytes, opaque, carried
verbatim. -/
def Base64String.fromBytes (bytes : String) : Base64String := bytes

/-- Modelled from the spec: base36 conversion of a stream identifier used
for the update request stream field, opaque, carried verbatim. -/
def MultiBase36String.ofStreamId (s : StreamId) : MultiBase36String := s.cid

/-- One signature entry of a JWS-style envelope: an optional protected
header and the signature, per the external envelope type. -/
structure JwsSignature where
  «protected» : Option String
  signature : String

/-- A JWS-style signed envelope: a payload and one or more signature
entries, per the external envelope type. -/
structure Jws where
  payload : String
  signatures : List JwsSignature

/-- Modelled from the spec: a JSON-Patch value. The diff collaborator is
external and its output opaque to this client, which only forwards it; the
model records which inputs a patch was produced from, which is exactly
what the claims inspect. A caller supplied patch document is atomic. -/
inductive Patch where
  | ops (doc : Value)
  | diffOf (before after : Value)

namespace json_patch

/-- Modelled from the spec: the external structural JSON diff collaborator,
from a previous content value and a desired value to a patch. -/
def diff (before after : Value) : Patch := Patch.diffOf before after

end json_patch

/-- Modelled from the spec: the signer identity held by the client; the
controller set is derived from it at call time. -/
structure Signer where
  id : String

/-- Modelled from the spec: a signed commit produced by the external event
capability, carrying the linked raw block and its JWS envelope. -/
structure SignedCommit where
  linked_block : String
  jws : Jws

/-- Modelled from the spec: an unsigned init commit produced by the
external event capability for the single-instance case, carrying only the
dag-cbor encoded payload. -/
structure UnsignedCommit where
  encoded : DagCborEncoded

/-- Modelled from the spec: the external commit-signing capability
(EventArgs of the event crate). Operations are indexed by the parent model
identifier the event arguments were constructed with; the reserved
self-describing model is the parent used for model genesis commits. Each
operation may fail, and failures propagate. -/
structure EventCapability where
  selfParent : StreamId
  init : StreamId → Except String UnsignedCommit
  initWithData : StreamId → Value → Except String SignedCommit
  update : StreamId → Cid → Cid → Patch → Except String SignedCommit

/-- Header for block data (src/api.rs BlockHeader). -/
structure BlockHeader where
  family : String
  controllers : List String
  model : Base64String

/-- Block data wrapping a commit payload (src/api.rs BlockData). -/
structure BlockData (T : Type) where
  header : BlockHeader
  data : Option T
  jws : Option Jws
  linked_block : Option Base64String
  cacao_block : Option MultiBase32String

/-- Create request for the http api (src/api.rs CreateRequest). -/
structure CreateRequest (T : Type) where
  tpe : StreamIdType
  block : BlockData T

/-- Update request for the http api (src/api.rs UpdateRequest); carries
the stream to update alongside the commit block. -/
structure UpdateRequest where
  tpe : StreamIdType
  block : BlockData Base64String
  stream_id : MultiBase36String

/-- Log entry for a stream (src/api.rs StateLog). -/
structure StateLog where
  cid : MultiBase36String

/-- Metadata for a stream (src/api.rs Metadata). -/
structure Metadata where
  controllers : List String
  model : StreamId

/-- Current state of a stream (src/api.rs StreamState). -/
structure StreamState where
  content : Value
  log : List StateLog
  metadata : Metadata

/-- Response from a request against the streams endpoint
(src/api.rs StreamsResponse). -/
structure StreamsResponse where
  stream_id : StreamId
  state : Option StreamState

/-- Response from the streams endpoint or an error shell
(src/api.rs StreamsResponseOrError, a serde untagged union whose Error
variant is declared first). -/
inductive StreamsResponseOrError where
  | error (error : String)
  | ok (resp : StreamsResponse)

/-- Resolve or throw the error from a response
(src/api.rs StreamsResponseOrError::resolve). -/
def StreamsResponseOrError.resolve : StreamsResponseOrError → String → Except String StreamsResponse
  | .error e, context => .error (context ++ ": " ++ e)
  | .ok resp, _ => .ok resp

/-- Json wrapper around a jws (src/api.rs JwsValue). -/
structure JwsValue where
  jws : Jws

/-- Commit for a specific stream (src/api.rs Commit). -/
structure Commit where
  cid : MultiBase36String
  value : Option JwsValue

/-- Request against the admin api (src/api.rs AdminApiRequest): the
compact three part transport string. -/
structure AdminApiRequest where
  jws : String

/-- Conversion of a signed envelope into the admin transport string
(src/api.rs, TryFrom Jws for AdminApiRequest): take the first signature
entry, require its protected header, and produce the compact string
protected.payload.signature; otherwise fail. -/
def AdminApiRequest.tryFromJws (value : Jws) : Except String AdminApiRequest :=
  match value.signatures.head? with
  | some sig =>
    match sig.«protected» with
    | some p => .ok { jws := p ++ "." ++ value.payload ++ "." ++ sig.signature }
    | none => .error "Invalid jws, no signatures"
  | none => .error "Invalid jws, no signatures"

/-- Pagination for a query (src/api.rs Pagination): forward with first and
optional after cursor, or backward with last and optional before cursor. -/
inductive Pagination where
  | first (first : Nat) (after : Option Base64UrlString)
  | last (last : Nat) (before : Option Base64UrlString)

/-- Default pagination (src/api.rs, Default for Pagination). -/
def Pagination.default : Pagination := .first 100 none

/-- Serialized fields of a pagination value, in serde order; an absent
cursor is omitted entirely (skip_serializing_if Option::is_none). -/
def Pagination.toJsonFields : Pagination → List (String × Value)
  | .first n after =>
    ("first", .num n) :: (match after with
      | some a => [("after", .str a)]
      | none => [])
  | .last n before =>
    ("last", .num n) :: (match before with
      | some b => [("before", .str b)]
      | none => [])

/-- Modelled from the spec: the operation filter of the repository's query
module, which is not among the provided sources; equality and comparison
predicates on a document field, serialized under camelCase operator keys. -/
inductive OperationFilter where
  | equalTo (v : Value)
  | notEqualTo (v : Value)
  | greaterThan (v : Value)
  | lessThan (v : Value)

/-- Modelled from the spec: serialization of an operation filter as a one
entry object keyed by the operator name. -/
def OperationFilter.toJson : OperationFilter → Value
  | .equalTo v => .obj [("equalTo", v)]
  | .notEqualTo v => .obj [("notEqualTo", v)]
  | .greaterThan v => .obj [("greaterThan", v)]
  | .lessThan v => .obj [("lessThan", v)]

/-- Modelled from the spec: the filter query of the repository's query
module (not among the provided sources); a mapping from field name to an
operation filter, combined under a single where key. -/
inductive FilterQuery where
  | whereFilter (fields : List (String × OperationFilter))

/-- Modelled from the spec: serialization of a filter query, nesting the
field map under the where key. -/
def FilterQuery.toJson : FilterQuery → Value
  | .whereFilter fields =>
    .obj [("where", .obj (fields.map (fun kv => (kv.1, kv.2.toJson))))]

/-- Request to query (src/api.rs QueryRequest). -/
structure QueryRequest where
  model : StreamId
  account : String
  query : Option FilterQuery
  pagination : Pagination

/-- Serialization of a query request per its serde derive: fields in
declaration order, the query filters field renamed queryFilters and
omitted when absent, and the pagination fields flattened to the top
level. -/
def QueryRequest.toJson (q : QueryRequest) : Value :=
  .obj ([("model", .str (StreamId.toBase36 q.model)), ("account", .str q.account)]
    ++ (match q.query with
      | some f => [("queryFilters", f.toJson)]
      | none => [])
    ++ q.pagination.toJsonFields)

/-- Node returned from a query (src/api.rs QueryNode). -/
structure QueryNode where
  content : Value
  log : List Commit

/-- Edge returned from a query (src/api.rs QueryEdge). -/
structure QueryEdge where
  cursor : Base64UrlString
  node : QueryNode

/-- Info about query pages (src/api.rs PageInfo). -/
structure PageInfo where
  has_next_page : Bool
  has_previous_page : Bool
  end_cursor : Base64UrlString
  start_cursor : Base64UrlString

/-- Response to a query (src/api.rs QueryResponse). -/
structure QueryResponse where
  edges : List QueryEdge
  page_info : PageInfo

/-- Typed document extracted from a query edge
(src/api.rs TypedQueryDocument). -/
structure TypedQueryDocument (T : Type) where
  document : T
  commits : List Commit

/-- Typed response to a query (src/api.rs TypedQueryResponse). -/
structure TypedQueryResponse (T : Type) where
  documents : List (TypedQueryDocument T)
  page_info : PageInfo

/-- Decode every element of a JSON array with a field decoder, failing on
the first element that fails, as a serde sequence visitor does. -/
def decodeEach {α : Type} (f : Value → Except String α) : List Value → Except String (List α)
  | [] => .ok []
  | x :: rest =>
    match f x with
    | .error e => .error e
    | .ok a =>
      match decodeEach f rest with
      | .error e => .error e
      | .ok as => .ok (a :: as)

/-- Decoder for a stream log entry (serde derive for StateLog): an object
with a required string cid field; unknown fields are ignored. -/
def decodeStateLog (j : Value) : Except String StateLog :=
  match j.lookup "cid" with
  | some (.str s) => .ok ⟨s⟩
  | some _ => .error "invalid type for field cid"
  | none => .error "missing field cid"

/-- Decoder for one controller entry, a string. -/
def decodeControllerEntry (j : Value) : Except String String :=
  match j with
  | .str s => .ok s
  | _ => .error "invalid type: expected a string"

/-- Decoder for stream metadata (serde derive for Metadata): required
controllers array of strings and required model identifier string. -/
def decodeMetadata (j : Value) : Except String Metadata :=
  match j.lookup "controllers" with
  | some (.arr cs) =>
    (match decodeEach decodeControllerEntry cs with
      | .error e => .error e
      | .ok controllers =>
        match j.lookup "model" with
        | some (.str m) => .ok { controllers := controllers, model := StreamId.fromBase36 m }
        | some _ => .error "invalid type for field model"
        | none => .error "missing field model")
  | some _ => .error "invalid type for field controllers"
  | none => .error "missing field controllers"

/-- Decoder for a stream state (serde derive for StreamState): required
content (any JSON value), required log array, required metadata. -/
def decodeStreamState (j : Value) : Except String StreamState :=
  match j.lookup "content" with
  | none => .error "missing field content"
  | some content =>
    match j.lookup "log" with
    | some (.arr entries) =>
      (match decodeEach decodeStateLog entries with
        | .error e => .error e
        | .ok log =>
          match j.lookup "metadata" with
          | some m =>
            (match decodeMetadata m with
              | .error e => .error e
              | .ok metadata => .ok { content := content, log := log, metadata := metadata })
          | none => .error "missing field metadata")
    | some _ => .error "invalid type for field log"
    | none => .error "missing field log"

/-- Decoder for the success shape of the streams endpoint (serde derive
for StreamsResponse): required streamId string, optional state (absent or
null decode to none); unknown fields are ignored. -/
def decodeStreamsResponse (j : Value) : Except String StreamsResponse :=
  match j.lookup "streamId" with
  | some (.str s) =>
    (match j.lookup "state" with
      | none => .ok { stream_id := StreamId.fromBase36 s, state := none }
      | some .null => .ok { stream_id := StreamId.fromBase36 s, state := none }
      | some v =>
        match decodeStreamState v with
        | .error e => .error e
        | .ok st => .ok { stream_id := StreamId.fromBase36 s, state := some st })
  | some _ => .error "invalid type for field streamId"
  | none => .error "missing field streamId"

/-- Decoder for the error shell: an object carrying a string error field;
unknown fields are ignored. -/
def decodeErrorShell (j : Value) : Except String String :=
  match j.lookup "error" with
  | some (.str e) => .ok e
  | some _ => .error "invalid type for field error"
  | none => .error "missing field error"

/-- Decoder for the untagged union StreamsResponseOrError, embedding the
serde untagged semantics: variants are attempted in declaration order
(src/api.rs declares the Error variant first, then Ok), and the first
variant that decodes wins; when neither matches the call fails as a hard
protocol error. -/
def decodeStreamsResponseOrError (j : Value) : Except String StreamsResponseOrError :=
  match decodeErrorShell j with
  | .ok e => .ok (.error e)
  | .error _ =>
    match decodeStreamsResponse j with
    | .ok r => .ok (.ok r)
    | .error _ =>
      .error "data did not match any variant of untagged enum StreamsResponseOrError"

/-- Modelled from the spec: a model definition (schema shape) as its
serialized JSON; the model definition module is a startup concern out of
the core scope and not among the provided sources. -/
abbrev ModelDefinition := Value

/-- Request builder for model creation (src/lib.rs create_model_request):
genesis of the reserved self-describing model, signed with inline data. -/
def create_model_request (cap : EventCapability) (signer : Signer)
    (model : ModelDefinition) : Except String (CreateRequest Base64String) :=
  match cap.initWithData cap.selfParent model with
  | .error e => .error e
  | .ok commit =>
    let controllers := [signer.id]
    let data := Base64String.fromBytes commit.linked_block
    let modelBytes := Base64String.fromBytes (StreamId.toVec cap.selfParent)
    .ok { tpe := .model,
          block := { header := { family := "test", controllers := controllers, model := modelBytes },
                     data := some data,
                     jws := some commit.jws,
                     linked_block := some data,
                     cacao_block := none } }

/-- Request builder for the single instance per account creation of a
model (src/lib.rs create_single_instance_request): requires the target to
be tagged Model kind, then wraps the unsigned pre-encoded init payload. -/
def create_single_instance_request (cap : EventCapability) (signer : Signer)
    (model_id : StreamId) : Except String (CreateRequest DagCborEncoded) :=
  if !model_id.is_model then
    .error "StreamId was not a model"
  else
    match cap.init model_id with
    | .error e => .error e
    | .ok commit =>
      let controllers := [signer.id]
      let model := Base64String.fromBytes (StreamId.toVec model_id)
      .ok { tpe := .modelInstanceDocument,
            block := { header := { family := "test", controllers := controllers, model := model },
                       data := some commit.encoded,
                       jws := none,
                       linked_block := none,
                       cacao_block := none } }

/-- Request builder for the list instance per account creation of a model
(src/lib.rs create_list_instance_request): requires the target to be
tagged Model kind, then wraps the signed commit with inline data. -/
def create_list_instance_request (cap : EventCapability) (signer : Signer)
    (model_id : StreamId) (data : Value) : Except String (CreateRequest Base64String) :=
  if !model_id.is_model then
    .error "StreamId was not a model"
  else
    match cap.initWithData model_id data with
    | .error e => .error e
    | .ok commit =>
      let controllers := [signer.id]
      let dataB := Base64String.fromBytes commit.linked_block
      let model := Base64String.fromBytes (StreamId.toVec model_id)
      .ok { tpe := .modelInstanceDocument,
            block := { header := { family := "test", controllers := controllers, model := model },
                       data := some dataB,
                       jws := some commit.jws,
                       linked_block := some dataB,
                       cacao_block := none } }

/-- One recorded invocation of the external commit-signing capability:
the stream genesis cid, the tip cid and the patch handed to it. -/
abbrev UpdateCall := Cid × Cid × Patch

/-- Request builder for updating an existing model instance
(src/lib.rs create_update_request), instrumented with the list of
invocations of the external commit-signing capability. The stream must be
tagged document kind; the tip is the last entry of the fetched log (absent
state or empty log fail with the no-commits error); the signed commit is
wrapped like a genesis signed payload together with the stream's own
identifier. -/
def create_update_request (cap : EventCapability) (signer : Signer)
    (model : StreamId) (get : StreamsResponse) (patch : Patch) :
    Except String UpdateRequest × List UpdateCall :=
  if !get.stream_id.is_document then
    (.error "StreamId was not a document", [])
  else
    match get.state.bind (fun s => s.log.getLast?) with
    | some tip =>
      (match Cid.fromStr tip.cid with
        | .error e => (.error e, [])
        | .ok tipCid =>
          let calls := [(get.stream_id.cid, tipCid, patch)]
          match cap.update model get.stream_id.cid tipCid patch with
          | .error e => (.error e, calls)
          | .ok commit =>
            let controllers := [signer.id]
            let data := Base64String.fromBytes commit.linked_block
            let modelBytes := Base64String.fromBytes (StreamId.toVec model)
            let stream := MultiBase36String.ofStreamId get.stream_id
            (.ok { tpe := .modelInstanceDocument,
                   block := { header := { family := "test", controllers := controllers, model := modelBytes },
                              data := some data,
                              jws := some commit.jws,
                              linked_block := some data,
                              cacao_block := none },
                   stream_id := stream }, calls))
    | none => (.error "No commits found for stream ", [])

/-- Request builder for replacing an existing model instance completely
(src/lib.rs create_replace_request): computes the patch as the structural
diff from the prior content (the empty object when no state exists) to the
desired content and delegates to the update builder. -/
def create_replace_request (cap : EventCapability) (signer : Signer)
    (model : StreamId) (get : StreamsResponse) (data : Value) :
    Except String UpdateRequest × List UpdateCall :=
  let d := match get.state with
    | some st => json_patch.diff st.content data
    | none => json_patch.diff (Value.obj []) data
  create_update_request cap signer model get d

/-- Typed projection of query edges (src/lib.rs query_as, the collect over
the edge iterator): each edge's node content is decoded into the target
type; the first failing edge fails the whole collection. -/
def collectTypedDocuments {T : Type} (decode : Value → Except String T) :
    List QueryEdge → Except String (List (TypedQueryDocument T))
  | [] => .ok []
  | edge :: rest =>
    match decode edge.node.content with
    | .error e => .error e
    | .ok doc =>
      match collectTypedDocuments decode rest with
      | .error e => .error e
      | .ok docs => .ok ({ document := doc, commits := edge.node.log } :: docs)

/-- Typed query resolution (src/lib.rs query_as, the response shaping
after the transport call): project every edge and keep the page info; any
decode failure fails the entire call. -/
def queryAsResolve {T : Type} (decode : Value → Except String T)
    (resp : QueryResponse) : Except String (TypedQueryResponse T) :=
  match collectTypedDocuments decode resp.edges with
  | .error e => .error e
  | .ok docs => .ok { documents := docs, page_info := resp.page_info }

/-- A concrete signed envelope used by the concrete instantiations below. -/
def jws0 : Jws :=
  { payload := "pl", signatures := [{ «protected» := some "ph", signature := "sg" }] }

/-- A concrete external event capability for concrete instantiations. -/
def cap0 : EventCapability :=
  { selfParent := ⟨.model, "selfparentcid"⟩
    init := fun _ => .ok { encoded := "enc" }
    initWithData := fun _ _ => .ok { linked_block := "lb", jws := jws0 }
    update := fun _ _ _ _ => .ok { linked_block := "lb2", jws := jws0 } }

/-- A concrete signer identity. -/
def signer0 : Signer := { id := "did:key:z6Mk" }

/-- A concrete model-kind stream identifier. -/
def model0 : StreamId := ⟨.model, "modelcid"⟩

/-- A concrete document-kind stream identifier. -/
def doc_id0 : StreamId := ⟨.modelInstanceDocument, "dcid"⟩

/-- Concrete stream metadata. -/
def meta0 : Metadata := { controllers := ["did:key:z6Mk"], model := model0 }

/-- A concrete caller supplied patch. -/
def patch0 : Patch := .ops (.arr [])

/-- A fetched response whose stream identifier is model-kind and whose
state has an empty log. -/
def get_empty_model_kind : StreamsResponse :=
  { stream_id := ⟨.model, "mcid"⟩
    state := some { content := .null, log := [], metadata := meta0 } }

/-- A fetched response whose stream identifier is document-kind and whose
state has an empty log. -/
def get_empty_doc_kind : StreamsResponse :=
  { stream_id := ⟨.modelInstanceDocument, "dcid"⟩
    state := some { content := .null, log := [], metadata := meta0 } }

/-- A fetched response with a model-kind stream identifier and no state. -/
def get_model_kind0 : StreamsResponse := { stream_id := model0, state := none }

/-- A fetched response with a document-kind stream identifier and a two
entry log. -/
def get_two_commits : StreamsResponse :=
  { stream_id := ⟨.modelInstanceDocument, "gcid"⟩
    state := some { content := .null, log := [⟨"t1"⟩, ⟨"t2"⟩], metadata := meta0 } }

/-- A raw response that matches both the error shape and the success shape
of the streams endpoint: it carries both a valid streamId field and an
error string field (unknown fields are ignored by either variant). -/
def bothShapesInput : Value :=
  .obj [("streamId", .str "kjzl6hvfrbw6c8apa5yce6ah3fsz9sgrh6upniy0tz8z76gdm169ds3tf8c051t"),
        ("error", .str "boom")]

/-- A decoder for the caller's target type in typed queries, used by the
concrete instantiations: accepts only JSON numbers. -/
def decodeNum : Value → Except String Nat
  | .num n => .ok n
  | _ => .error "invalid type: expected a number"

/-- A query edge whose content decodes as a number. -/
def good_edge0 : QueryEdge := { cursor := "c0", node := { content := .num 7, log := [] } }

/-- A query edge whose content fails to decode as a number. -/
def bad_edge0 : QueryEdge := { cursor := "c1", node := { content := .str "notnum", log := [] } }

/-- Concrete page info. -/
def page_info0 : PageInfo :=
  { has_next_page := false, has_previous_page := false, end_cursor := "e", start_cursor := "s" }

/-- A query response with one good edge followed by one bad edge. -/
def resp0 : QueryResponse := { edges := [good_edge0, bad_edge0], page_info := page_info0 }

/-- The query request of the repository's serialization test: the model of
the test, account test, a where-filter on id equal to the string one, and
default pagination. -/
def c9Request : QueryRequest :=
  { model := ⟨.model, "kjzl6hvfrbw6c8apa5yce6ah3fsz9sgrh6upniy0tz8z76gdm169ds3tf8c051t"⟩
    account := "test"
    query := some (.whereFilter [("id", .equalTo (.str "1"))])
    pagination := Pagination.default }

/-- The concrete model creation request produced by the concrete
capability and signer. -/
def modelReq0 : CreateRequest Base64String :=
  { tpe := .model,
    block := { header := { family := "test", controllers := ["did:key:z6Mk"],
                           model := "selfparentcid" },
               data := some "lb", jws := some jws0,
               linked_block := some "lb", cacao_block := none } }

/-- The concrete single instance request produced by the concrete
capability and signer. -/
def singleReq0 : CreateRequest DagCborEncoded :=
  { tpe := .modelInstanceDocument,
    block := { header := { family := "test", controllers := ["did:key:z6Mk"],
                           model := "modelcid" },
               data := some "enc", jws := none,
               linked_block := none, cacao_block := none } }

/-- The concrete list instance request produced by the concrete capability
and signer. -/
def listReq0 : CreateRequest Base64String :=
  { tpe := .modelInstanceDocument,
    block := { header := { family := "test", controllers := ["did:key:z6Mk"],
                           model := "modelcid" },
               data := some "lb", jws := some jws0,
               linked_block := some "lb", cacao_block := none } }

/-- The concrete update request produced by the concrete capability and
signer against the two entry log. -/
def updateReq0 : UpdateRequest :=
  { tpe := .modelInstanceDocument,
    block := { header := { family := "test", controllers := ["did:key:z6Mk"],
                           model := "modelcid" },
               data := some "lb2", jws := some jws0,
               linked_block := some "lb2", cacao_block := none },
    stream_id := "gcid" }

/-- The signing capability invocations recorded for the concrete update. -/
def updateCalls0 : List UpdateCall := [("gcid", "t2", patch0)]

/-- C1, counterexample: on a raw response matching both union shapes, the
success shape decodes, yet the union resolver yields the error variant,
because the source declares the Error variant first and serde untagged
unions attempt variants in declaration order; the claimed success-first
disambiguation would have yielded the success variant. -/
theorem untagged_union_error_first_cex :
    (decodeStreamsResponse bothShapesInput).isOk = true ∧
    decodeStreamsResponseOrError bothShapesInput = .ok (.error "boom") ∧
    ∀ r, decodeStreamsResponseOrError bothShapesInput ≠ .ok (.ok r) := by
  refine ⟨rfl, rfl, ?_⟩
  intro r h
  have hx : (Except.ok (StreamsResponseOrError.error "boom") :
      Except String StreamsResponseOrError) = .ok (.ok r) :=
    Eq.trans (Eq.symm (rfl :
      decodeStreamsResponseOrError bothShapesInput = .ok (.error "boom"))) h
  injection hx with hy
  exact StreamsResponseOrError.noConfusion hy

/-- C1, amended: disambiguation of the untagged error-vs-success union
proceeds by first attempting to decode the error shape (an object with a
string error field); only if that fails is the success shape attempted;
if neither matches, the call fails as a hard protocol error. -/
theorem untagged_union_decode_order (j : Value) :
    (∀ e, decodeErrorShell j = .ok e →
      decodeStreamsResponseOrError j = .ok (.error e)) ∧
    (∀ msg r, decodeErrorShell j = .error msg → decodeStreamsResponse j = .ok r →
      decodeStreamsResponseOrError j = .ok (.ok r)) ∧
    (∀ msg msg2, decodeErrorShell j = .error msg → decodeStreamsResponse j = .error msg2 →
      (decodeStreamsResponseOrError j).isOk = false) := by
  refine ⟨?_, ?_, ?_⟩
  · intro e he
    unfold decodeStreamsResponseOrError
    rw [he]
  · intro msg r he hr
    unfold decodeStreamsResponseOrError
    rw [he, hr]
  · intro msg msg2 he hr
    unfold decodeStreamsResponseOrError
    rw [he, hr]
    rfl

/-- Witness for the amended C1 theorem at a concrete error response. -/
theorem untagged_union_decode_order_witness :
    decodeStreamsResponseOrError (.obj [("error", .str "x")]) = .ok (.error "x") :=
  (untagged_union_decode_order (.obj [("error", .str "x")])).1 "x" rfl

/-- C2, counterexample: an input whose log is empty but whose stream
identifier is model-kind fails with the document-kind precondition, not
with the no-commits condition, because the kind check precedes the log
check; no signing call is made either way. -/
theorem empty_log_not_always_no_commits_cex :
    create_update_request cap0 signer0 model0 get_empty_model_kind patch0
      = (.error "StreamId was not a document", []) ∧
    "StreamId was not a document" ≠ "No commits found for stream " :=
  ⟨rfl, by decide⟩

/-- C2, amended: on any input whose state is absent or whose log is empty,
create_update_request makes no call to the external signing capability,
and when the stream identifier is document-kind it fails with the
no-commits condition. -/
theorem empty_log_update_no_commits (cap : EventCapability) (signer : Signer)
    (model : StreamId) (get : StreamsResponse) (patch : Patch)
    (hempty : get.state.bind (fun s => s.log.getLast?) = none) :
    (create_update_request cap signer model get patch).2 = [] ∧
    (get.stream_id.is_document = true →
      create_update_request cap signer model get patch
        = (.error "No commits found for stream ", [])) := by
  unfold create_update_request
  cases hd : get.stream_id.is_document with
  | false => simp [hd]
  | true => simp [hd, hempty]

/-- Witness for the amended C2 theorem at a concrete document-kind input
with an empty log. -/
theorem empty_log_update_no_commits_witness :
    create_update_request cap0 signer0 model0 get_empty_doc_kind patch0
      = (.error "No commits found for stream ", []) :=
  (empty_log_update_no_commits cap0 signer0 model0 get_empty_doc_kind patch0 rfl).2 rfl

/-- C3: the single and list instance builders fail their precondition when
the given identifier is not tagged Model kind, and the update builder
fails its precondition when the fetched stream identifier is not tagged
document kind; in each failing case no request payload is produced (and
the update builder makes no signing call). -/
theorem wrong_kind_preconditions (cap : EventCapability) (signer : Signer)
    (model_id : StreamId) (data : Value) (model : StreamId)
    (get : StreamsResponse) (patch : Patch) :
    (model_id.is_model = false →
      create_single_instance_request cap signer model_id
        = .error "StreamId was not a model") ∧
    (model_id.is_model = false →
      create_list_instance_request cap signer model_id data
        = .error "StreamId was not a model") ∧
    (get.stream_id.is_document = false →
      create_update_request cap signer model get patch
        = (.error "StreamId was not a document", [])) := by
  refine ⟨?_, ?_, ?_⟩
  · intro h
    unfold create_single_instance_request
    rw [h]
    rfl
  · intro h
    unfold create_list_instance_request
    rw [h]
    rfl
  · intro h
    unfold create_update_request
    rw [h]
    rfl

/-- Witness for C3 at concrete kind-mismatched inputs. -/
theorem wrong_kind_preconditions_witness :
    create_single_instance_request cap0 signer0 doc_id0
      = .error "StreamId was not a model" ∧
    create_list_instance_request cap0 signer0 doc_id0 .null
      = .error "StreamId was not a model" ∧
    create_update_request cap0 signer0 model0 get_model_kind0 patch0
      = (.error "StreamId was not a document", []) :=
  ⟨(wrong_kind_preconditions cap0 signer0 doc_id0 .null model0 get_model_kind0 patch0).1 rfl,
   (wrong_kind_preconditions cap0 signer0 doc_id0 .null model0 get_model_kind0 patch0).2.1 rfl,
   (wrong_kind_preconditions cap0 signer0 doc_id0 .null model0 get_model_kind0 patch0).2.2 rfl⟩

/-- C4: with a non-empty log, the update builder hands the external
signing capability exactly one call whose causal tip is the cid of the
last log entry (alongside the stream genesis cid and the patch), and the
produced payload carries the stream's own identifier in its stream field,
separately from the model identifier carried in the block header. -/
theorem update_tip_is_last_log_entry (cap : EventCapability) (signer : Signer)
    (model : StreamId) (get : StreamsResponse) (patch : Patch)
    (st : StreamState) (tip : StateLog) (commit : SignedCommit)
    (hdoc : get.stream_id.is_document = true)
    (hstate : get.state = some st)
    (htip : st.log.getLast? = some tip)
    (hsign : cap.update model get.stream_id.cid tip.cid patch = .ok commit) :
    (create_update_request cap signer model get patch).2
      = [(get.stream_id.cid, tip.cid, patch)] ∧
    (create_update_request cap signer model get patch).1
      = .ok { tpe := .modelInstanceDocument,
              block := { header := { family := "test", controllers := [signer.id],
                                     model := Base64String.fromBytes (StreamId.toVec model) },
                         data := some (Base64String.fromBytes commit.linked_block),
                         jws := some commit.jws,
                         linked_block := some (Base64String.fromBytes commit.linked_block),
                         cacao_block := none },
              stream_id := MultiBase36String.ofStreamId get.stream_id } := by
  unfold create_update_request
  simp [hdoc, hstate, htip, Cid.fromStr, hsign]

/-- Witness for C4 at a concrete two entry log: the tip handed to the
signing capability is the second (last) entry. -/
theorem update_tip_is_last_log_entry_witness :
    (create_update_request cap0 signer0 model0 get_two_commits patch0).2
      = [("gcid", "t2", patch0)] :=
  (update_tip_is_last_log_entry cap0 signer0 model0 get_two_commits patch0
    { content := .null, log := [⟨"t1"⟩, ⟨"t2"⟩], metadata := meta0 }
    ⟨"t2"⟩ { linked_block := "lb2", jws := jws0 }
    rfl rfl rfl rfl).1

/-- C5: converting a signed envelope to the admin transport string fails
with the missing-signature error when the envelope has zero signatures, or
when its first signature lacks a protected header; on a well-formed
envelope it produces exactly the concatenation of the first signature's
protected header, the payload and the first signature's signature,
separated by dots. -/
theorem admin_transport_string_spec (payload pr sg sg2 : String)
    (rest : List JwsSignature) :
    AdminApiRequest.tryFromJws { payload := payload, signatures := [] }
      = .error "Invalid jws, no signatures" ∧
    AdminApiRequest.tryFromJws
        { payload := payload,
          signatures := { «protected» := none, signature := sg2 } :: rest }
      = .error "Invalid jws, no signatures" ∧
    AdminApiRequest.tryFromJws
        { payload := payload,
          signatures := { «protected» := some pr, signature := sg } :: rest }
      = .ok { jws := pr ++ "." ++ payload ++ "." ++ sg } :=
  ⟨rfl, rfl, rfl⟩

/-- Collecting typed documents fails whenever any edge of the list fails
to decode, mirroring the short-circuit collect over the edge iterator. -/
theorem collectTypedDocuments_fails_of_mem {T : Type} (decode : Value → Except String T)
    (l : List QueryEdge) (edge : QueryEdge) (hmem : edge ∈ l)
    (hbad : (decode edge.node.content).isOk = false) :
    (collectTypedDocuments decode l).isOk = false := by
  induction l with
  | nil => exact absurd hmem (List.not_mem_nil edge)
  | cons x rest ih =>
    unfold collectTypedDocuments
    rcases List.mem_cons.mp hmem with h | h
    · subst h
      cases hx : decode edge.node.content with
      | error e => rfl
      | ok doc => rw [hx] at hbad; exact Bool.noConfusion hbad
    · cases hx : decode x.node.content with
      | error e => rfl
      | ok doc =>
        have hrest := ih h
        cases hc : collectTypedDocuments decode rest with
        | error e => rfl
        | ok docs => rw [hc] at hrest; exact Bool.noConfusion hrest

/-- C6: whenever the typed projection of any single edge's node content
fails to decode, the typed query resolution fails the entire call and
returns no partial result; it never drops the failing edge and returns the
rest. -/
theorem query_as_all_or_nothing {T : Type} (decode : Value → Except String T)
    (resp : QueryResponse) (edge : QueryEdge)
    (hmem : edge ∈ resp.edges)
    (hbad : (decode edge.node.content).isOk = false) :
    (queryAsResolve decode resp).isOk = false := by
  unfold queryAsResolve
  have hfail := collectTypedDocuments_fails_of_mem decode resp.edges edge hmem hbad
  cases hc : collectTypedDocuments decode resp.edges with
  | error e => rfl
  | ok docs => rw [hc] at hfail; exact Bool.noConfusion hfail

/-- Witness for C6 at a concrete response with one good and one bad edge. -/
theorem query_as_all_or_nothing_witness :
    (queryAsResolve decodeNum resp0).isOk = false :=
  query_as_all_or_nothing decodeNum resp0 bad_edge0
    (List.mem_cons_of_mem good_edge0 (List.mem_cons_self bad_edge0 []))
    rfl

/-- C7: the replace builder computes its patch as the structural diff from
the prior content to the desired content, diffing against the empty
object (not null or absent) when no prior state exists, and delegates to
the update builder, so replace produces the same wire shape as update. -/
theorem replace_diffs_prior_or_empty_object (cap : EventCapability) (signer : Signer)
    (model : StreamId) (get : StreamsResponse) (data : Value) :
    (get.state = none →
      create_replace_request cap signer model get data
        = create_update_request cap signer model get
            (json_patch.diff (Value.obj []) data)) ∧
    (∀ st, get.state = some st →
      create_replace_request cap signer model get data
        = create_update_request cap signer model get
            (json_patch.diff st.content data)) := by
  constructor
  · intro h
    unfold create_replace_request
    rw [h]
  · intro st h
    unfold create_replace_request
    rw [h]

/-- Witness for C7 at a concrete fetched response with no state. -/
theorem replace_diffs_prior_or_empty_object_witness :
    create_replace_request cap0 signer0 model0 get_model_kind0 (Value.num 1)
      = create_update_request cap0 signer0 model0 get_model_kind0
          (json_patch.diff (Value.obj []) (Value.num 1)) :=
  (replace_diffs_prior_or_empty_object cap0 signer0 model0 get_model_kind0 (Value.num 1)).1 rfl

/-- C8: the raw error response with message boom resolves, under context
create_model, to a failure whose message is exactly create_model followed
by a colon, a space and boom; in general, when the error shape matches,
resolve fails with the context, a colon and a space prefixed to the
message. -/
theorem resolve_error_message_format :
    decodeStreamsResponseOrError (.obj [("error", .str "boom")]) = .ok (.error "boom") ∧
    StreamsResponseOrError.resolve (.error "boom") "create_model"
      = .error "create_model: boom" ∧
    ∀ (context msg : String),
      StreamsResponseOrError.resolve (.error msg) context
        = .error (context ++ ": " ++ msg) :=
  ⟨rfl, rfl, fun _ _ => rfl⟩

/-- C9: serializing the query request of the repository's test (where
filter on id equal to the string one, default pagination) produces exactly
the expected JSON text, with fields in the order model, account,
queryFilters, then the flattened pagination fields; the default pagination
is first equal to one hundred with the cursor field entirely omitted. -/
theorem query_request_serializes_exactly :
    Value.render (QueryRequest.toJson c9Request)
      = "\x7b\"model\":\"kjzl6hvfrbw6c8apa5yce6ah3fsz9sgrh6upniy0tz8z76gdm169ds3tf8c051t\",\"account\":\"test\",\"queryFilters\":\x7b\"where\":\x7b\"id\":\x7b\"equalTo\":\"1\"\x7d\x7d\x7d,\"first\":100\x7d" ∧
    Pagination.default = Pagination.first 100 none ∧
    Pagination.toJsonFields Pagination.default = [("first", Value.num 100)] :=
  ⟨rfl, rfl, rfl⟩

/-- C10: every request payload built by the client (model creation, single
instance, list instance, update) sets the block header family field to the
literal string test, for all inputs on which a payload is produced. -/
theorem builders_family_is_test (cap : EventCapability) (signer : Signer) :
    (∀ (md : ModelDefinition) (r : CreateRequest Base64String),
      create_model_request cap signer md = .ok r → r.block.header.family = "test") ∧
    (∀ (model_id : StreamId) (r : CreateRequest DagCborEncoded),
      create_single_instance_request cap signer model_id = .ok r →
        r.block.header.family = "test") ∧
    (∀ (model_id : StreamId) (data : Value) (r : CreateRequest Base64String),
      create_list_instance_request cap signer model_id data = .ok r →
        r.block.header.family = "test") ∧
    (∀ (model : StreamId) (get : StreamsResponse) (patch : Patch)
        (r : UpdateRequest) (calls : List UpdateCall),
      create_update_request cap signer model get patch = (.ok r, calls) →
        r.block.header.family = "test") := by
  refine ⟨?_, ?_, ?_, ?_⟩
  · intro md r h
    unfold create_model_request at h
    cases hc : cap.initWithData cap.selfParent md with
    | error e => rw [hc] at h; exact Except.noConfusion h
    | ok commit =>
      rw [hc] at h
      injection h with h2
      rw [← h2]
  · intro model_id r h
    unfold create_single_instance_request at h
    cases hm : model_id.is_model with
    | false => rw [hm] at h; exact Except.noConfusion h
    | true =>
      rw [hm] at h
      cases hc : cap.init model_id with
      | error e => rw [hc] at h; exact Except.noConfusion h
      | ok commit =>
        rw [hc] at h
        injection h with h2
        rw [← h2]
  · intro model_id data r h
    unfold create_list_instance_request at h
    cases hm : model_id.is_model with
    | false => rw [hm] at h; exact Except.noConfusion h
    | true =>
      rw [hm] at h
      cases hc : cap.initWithData model_id data with
      | error e => rw [hc] at h; exact Except.noConfusion h
      | ok commit =>
        rw [hc] at h
        injection h with h2
        rw [← h2]
  · intro model get patch r calls h
    unfold create_update_request at h
    split at h
    · injection h with h1 h2
      exact Except.noConfusion h1
    · split at h
      · split at h
        · injection h with h1 h2
          exact Except.noConfusion h1
        · split at h
          · injection h with h1 h2
            exact Except.noConfusion h1
          · injection h with h1 h2
            injection h1 with h3
            rw [← h3]
      · injection h with h1 h2
        exact Except.noConfusion h1

/-- Witness for C10 at the concrete capability, signer and inputs: each of
the four builders produces its concrete payload, and its family field is
the literal string test. -/
theorem builders_family_is_test_witness :
    modelReq0.block.header.family = "test" ∧
    singleReq0.block.header.family = "test" ∧
    listReq0.block.header.family = "test" ∧
    updateReq0.block.header.family = "test" :=
  ⟨(builders_family_is_test cap0 signer0).1 .null modelReq0 rfl,
   (builders_family_is_test cap0 signer0).2.1 model0 singleReq0 rfl,
   (builders_family_is_test cap0 signer0).2.2.1 model0 .null listReq0 rfl,
   (builders_family_is_test cap0 signer0).2.2.2 model0 get_two_commits patch0
     updateReq0 updateCalls0 rfl⟩

end Ceramic
